import Mathlib

/-
  Verification development for the traffic-power-tool repository.

  JavaScript numbers are modelled as rationals (ℚ).  Where the source can
  produce a non-finite number (Infinity / NaN, e.g. division by zero), the
  value is modelled as `Option ℚ`: `some q` is the finite number `q`,
  `none` is a non-finite value.
-/

namespace TrafficPowerTool

/-! ## frontend/src/store/simulation.ts : SessionStats and updateStats -/

/-- The `SessionStats` record of `frontend/src/types/index.ts`.  The two
derived fields are optional in TypeScript and may become non-finite through
`updateStats`, hence `Option ℚ`. -/
structure SessionStats where
  total : ℚ
  successful : ℚ
  failed : ℚ
  completed : ℚ
  total_duration : ℚ
  average_duration : Option ℚ
  success_rate : Option ℚ
deriving DecidableEq

/-- A `Partial<SessionStats>` argument of `updateStats`: each field may be
absent (`none`) or present. -/
structure StatsPatch where
  total : Option ℚ := none
  successful : Option ℚ := none
  failed : Option ℚ := none
  completed : Option ℚ := none
  total_duration : Option ℚ := none
  average_duration : Option (Option ℚ) := none
  success_rate : Option (Option ℚ) := none
deriving DecidableEq

/-- The `initialStats` constant of `frontend/src/store/simulation.ts`. -/
def initialStats : SessionStats :=
  { total := 0, successful := 0, failed := 0, completed := 0
    total_duration := 0, average_duration := some 0, success_rate := some 0 }

/-- The spread merge `\x7b ...state.stats, ...newStats \x7d`: a field present in
the patch overrides the state's field. -/
def mergeStats (s : SessionStats) (p : StatsPatch) : SessionStats :=
  { total := p.total.getD s.total
    successful := p.successful.getD s.successful
    failed := p.failed.getD s.failed
    completed := p.completed.getD s.completed
    total_duration := p.total_duration.getD s.total_duration
    average_duration := p.average_duration.getD s.average_duration
    success_rate := p.success_rate.getD s.success_rate }

/-- JavaScript division on finite numbers: non-finite (`none`) exactly when
the divisor is zero. -/
def jsDiv (a b : ℚ) : Option ℚ :=
  if b = 0 then none else some (a / b)

/-- The `updateStats` action of `frontend/src/store/simulation.ts`: merge the
partial into the current stats and, only when the merged `completed` is
positive, recompute `average_duration` and `success_rate`. -/
def updateStats (s : SessionStats) (p : StatsPatch) : SessionStats :=
  if 0 < (mergeStats s p).completed then
    { mergeStats s p with
      average_duration := jsDiv (mergeStats s p).total_duration (mergeStats s p).successful
      success_rate :=
        (jsDiv (mergeStats s p).successful (mergeStats s p).completed).map (fun q => q * 100) }
  else mergeStats s p

end TrafficPowerTool

namespace TrafficPowerTool

/-! ### Claims C1 and C2 -/

/-- C1, counterexample: updating the initial stats with
`total_duration = 10, successful = 2` leaves `completed = 0`, so the code
does not recompute the derived fields; `average_duration` stays `0`, which
differs from `total_duration / successful = 5` demanded by the claim. -/
theorem c1_counterexample :
    ¬ ((updateStats initialStats
          { total_duration := some 10, successful := some 2 }).average_duration =
        some ((updateStats initialStats
          { total_duration := some 10, successful := some 2 }).total_duration /
          (updateStats initialStats
          { total_duration := some 10, successful := some 2 }).successful)) := by
  norm_num [updateStats, mergeStats, initialStats, jsDiv]

/-- C1 (amended): after an update whose merged stats have `completed > 0` and
`successful ≠ 0`, the snapshot satisfies
`average_duration = total_duration / successful` and
`success_rate = successful / completed * 100`; when `completed > 0` but
`successful = 0` the average is non-finite rather than 0; and when the
merged `completed` is not positive nothing is recomputed — the result is
exactly the merged record, derived fields included. -/
theorem c1_derived_fields (s : SessionStats) (p : StatsPatch) :
    (0 < (mergeStats s p).completed → (mergeStats s p).successful ≠ 0 →
      (updateStats s p).average_duration =
        some ((mergeStats s p).total_duration / (mergeStats s p).successful) ∧
      (updateStats s p).success_rate =
        some ((mergeStats s p).successful / (mergeStats s p).completed * 100)) ∧
    (0 < (mergeStats s p).completed → (mergeStats s p).successful = 0 →
      (updateStats s p).average_duration = none) ∧
    (¬ 0 < (mergeStats s p).completed → updateStats s p = mergeStats s p) := by
  refine ⟨fun hc hs => ?_, fun hc hs => ?_, fun hc => ?_⟩
  · have hcne : (mergeStats s p).completed ≠ 0 := ne_of_gt hc
    unfold updateStats jsDiv
    simp [hc, hs, hcne]
  · unfold updateStats jsDiv
    simp [hc, hs]
  · unfold updateStats
    simp [hc]

/-- C1 witness: a concrete update where the derived fields are recomputed. -/
theorem c1_derived_fields_witness :
    (updateStats initialStats
        { successful := some 2, completed := some 2, total_duration := some 10 }).average_duration =
      some ((mergeStats initialStats
        { successful := some 2, completed := some 2, total_duration := some 10 }).total_duration /
        (mergeStats initialStats
        { successful := some 2, completed := some 2, total_duration := some 10 }).successful) ∧
    (updateStats initialStats
        { successful := some 2, completed := some 2, total_duration := some 10 }).success_rate =
      some ((mergeStats initialStats
        { successful := some 2, completed := some 2, total_duration := some 10 }).successful /
        (mergeStats initialStats
        { successful := some 2, completed := some 2, total_duration := some 10 }).completed * 100) :=
  (c1_derived_fields initialStats
    { successful := some 2, completed := some 2, total_duration := some 10 }).1
    (by norm_num [mergeStats, initialStats]) (by norm_num [mergeStats, initialStats])

/-- C2, counterexample: `updateStats` merges the caller's partial verbatim,
so updating only `successful` breaks `completed = successful + failed`. -/
theorem c2_counterexample :
    ¬ ((updateStats initialStats { successful := some 1 }).completed =
        (updateStats initialStats { successful := some 1 }).successful +
        (updateStats initialStats { successful := some 1 }).failed) := by
  norm_num [updateStats, mergeStats, initialStats, jsDiv]

/-- C2 (amended): `completed = successful + failed` holds in the initial
stats state, and `updateStats` itself never breaks the relation: whenever the
merged fields satisfy it, the resulting state does too.  It is not an
invariant of arbitrary update sequences, because a partial that changes
`successful` or `failed` without a matching `completed` breaks it. -/
theorem c2_completed_eq (s : SessionStats) (p : StatsPatch)
    (h : (mergeStats s p).completed =
      (mergeStats s p).successful + (mergeStats s p).failed) :
    initialStats.completed = initialStats.successful + initialStats.failed ∧
    (updateStats s p).completed =
      (updateStats s p).successful + (updateStats s p).failed := by
  refine ⟨by norm_num [initialStats], ?_⟩
  unfold updateStats
  split <;> simpa using h

/-- C2 witness: the empty partial preserves the relation on the initial
state. -/
theorem c2_completed_eq_witness :
    initialStats.completed = initialStats.successful + initialStats.failed ∧
    (updateStats initialStats {}).completed =
      (updateStats initialStats {}).successful +
      (updateStats initialStats {}).failed :=
  c2_completed_eq initialStats {} (by norm_num [mergeStats, initialStats])

end TrafficPowerTool

namespace TrafficPowerTool

/-! ## frontend/src/store/simulation.ts : the full zustand store

The payload types of live updates, logs, configs, analytics and dates are
irrelevant to the store's list-handling, so they are type parameters. -/

/-- Status literals of `currentSimulation.status` in the store. -/
inductive StoreStatus
  | idle
  | running
  | completed
  | failed
  | stopped
deriving DecidableEq

/-- The `currentSimulation` sub-record of the store state. -/
structure CurrentSimulation (γ ε : Type) where
  id : Option String
  config : Option γ
  status : StoreStatus
  startedAt : Option ε
  completedAt : Option ε

/-- A `Partial<SimulationState[currentSimulation]>` argument of
`setCurrentSimulation`. -/
structure CurrentSimulationPatch (γ ε : Type) where
  id : Option (Option String) := none
  config : Option (Option γ) := none
  status : Option StoreStatus := none
  startedAt : Option (Option ε) := none
  completedAt : Option (Option ε) := none

/-- Spread merge for `setCurrentSimulation`. -/
def mergeCurrentSimulation {γ ε : Type} (c : CurrentSimulation γ ε)
    (p : CurrentSimulationPatch γ ε) : CurrentSimulation γ ε :=
  { id := p.id.getD c.id
    config := p.config.getD c.config
    status := p.status.getD c.status
    startedAt := p.startedAt.getD c.startedAt
    completedAt := p.completedAt.getD c.completedAt }

/-- The state held by `useSimulationStore`;  `α` is the live-update payload,
`β` the log-entry payload, `γ` the config, `δ` the analytics payload and
`ε` the date type. -/
structure StoreState (α β γ δ ε : Type) where
  currentSimulation : CurrentSimulation γ ε
  stats : SessionStats
  liveUpdates : List α
  logs : List β
  analytics : Option δ
  isConfiguring : Bool
  isMonitoring : Bool
  selectedTab : String

/-- The actions exposed by `useSimulationStore`. -/
inductive StoreAction (α β γ δ ε : Type)
  | setCurrentSimulation (p : CurrentSimulationPatch γ ε)
  | updateStats (p : StatsPatch)
  | addLiveUpdate (u : α)
  | addLog (l : β)
  | setAnalytics (a : δ)
  | clearLiveData
  | setConfiguring (b : Bool)
  | setMonitoring (b : Bool)
  | setSelectedTab (t : String)
  | reset

/-- The initial store state created by `create<SimulationState>`. -/
def initialStore {α β γ δ ε : Type} : StoreState α β γ δ ε :=
  { currentSimulation :=
      { id := none, config := none, status := .idle, startedAt := none, completedAt := none }
    stats := initialStats
    liveUpdates := []
    logs := []
    analytics := none
    isConfiguring := false
    isMonitoring := false
    selectedTab := "overview" }

/-- One store action applied to the state, mirroring each `set` call in
`frontend/src/store/simulation.ts`.  `slice(0, n)` is `List.take n` after
consing the new entry at the front. -/
def applyAction {α β γ δ ε : Type} (s : StoreState α β γ δ ε) :
    StoreAction α β γ δ ε → StoreState α β γ δ ε
  | .setCurrentSimulation p =>
      { s with currentSimulation := mergeCurrentSimulation s.currentSimulation p }
  | .updateStats p => { s with stats := updateStats s.stats p }
  | .addLiveUpdate u => { s with liveUpdates := (u :: s.liveUpdates).take 100 }
  | .addLog l => { s with logs := (l :: s.logs).take 500 }
  | .setAnalytics a => { s with analytics := some a }
  | .clearLiveData => { s with liveUpdates := [], logs := [], stats := initialStats }
  | .setConfiguring b => { s with isConfiguring := b }
  | .setMonitoring b => { s with isMonitoring := b }
  | .setSelectedTab t => { s with selectedTab := t }
  | .reset => initialStore

/-! ## frontend/src/lib/websocket.ts : reconnection backoff -/

/-- The `maxReconnectAttempts` field of `WebSocketClient`. -/
def maxReconnectAttempts : Nat := 5

/-- The `reconnectDelay` field of `WebSocketClient`, in milliseconds. -/
def reconnectDelay : Nat := 1000

/-- The `handleReconnect` method: given the current `reconnectAttempts`
counter, either returns the incremented counter together with the scheduled
delay `reconnectDelay * 2 ^ (attempts - 1)` (with `attempts` the incremented
value), or `none` when the budget is exhausted and nothing is scheduled. -/
def handleReconnect (attempts : Nat) : Option (Nat × Nat) :=
  if attempts < maxReconnectAttempts then
    some (attempts + 1, reconnectDelay * 2 ^ (attempts + 1 - 1))
  else
    none

/-- The effect of one disconnect / connection error on the attempts counter. -/
def failStep (attempts : Nat) : Nat :=
  match handleReconnect attempts with
  | some p => p.1
  | none => attempts

/-- The delay scheduled at the n-th consecutive failure, counting from a
freshly connected client (`reconnectAttempts = 0`). -/
def nthReconnectDelay (n : Nat) : Option Nat :=
  (handleReconnect (failStep^[n - 1] 0)).map Prod.snd

/-! ## frontend/src/types/index.ts (useSimulation hook) : stopSimulation -/

/-- Status literals of the `useSimulation` hook's state machine. -/
inductive UiStatus
  | idle
  | starting
  | running
  | stopping
  | completed
  | failed
deriving DecidableEq

/-- The observable outcome of one `stopSimulation` call. -/
structure StopOutcome where
  requestSent : Bool
  errorShown : Bool
  status : UiStatus
deriving DecidableEq

/-- The `stopSimulation` callback of the `useSimulation` hook: unless an id
is present and the status is `running` or `stopping`, it shows an error and
returns without sending anything; otherwise it sends the stop request and,
when the backend reports success, sets the status to `stopping`. -/
def stopSimulation (id : Option String) (st : UiStatus) (backendOk : Bool) :
    StopOutcome :=
  if id = none ∨ (st ≠ UiStatus.running ∧ st ≠ UiStatus.stopping) then
    { requestSent := false, errorShown := true, status := st }
  else if backendOk then
    { requestSent := true, errorShown := false, status := UiStatus.stopping }
  else
    { requestSent := true, errorShown := true, status := st }

end TrafficPowerTool

namespace TrafficPowerTool

/-! ### Claim C8 -/

/-- Helper: every single action keeps `liveUpdates` within 100 entries and
`logs` within 500 entries, given the bounds held before. -/
theorem applyAction_bounds {α β γ δ ε : Type} (s : StoreState α β γ δ ε)
    (a : StoreAction α β γ δ ε)
    (h1 : s.liveUpdates.length ≤ 100) (h2 : s.logs.length ≤ 500) :
    (applyAction s a).liveUpdates.length ≤ 100 ∧
    (applyAction s a).logs.length ≤ 500 := by
  cases a <;>
    simp_all [applyAction, initialStore, List.length_take]

/-- Helper: the bounds hold after folding any action list over a state that
satisfies them. -/
theorem foldl_applyAction_bounds {α β γ δ ε : Type}
    (acts : List (StoreAction α β γ δ ε)) (s : StoreState α β γ δ ε)
    (h1 : s.liveUpdates.length ≤ 100) (h2 : s.logs.length ≤ 500) :
    (acts.foldl applyAction s).liveUpdates.length ≤ 100 ∧
    (acts.foldl applyAction s).logs.length ≤ 500 := by
  induction acts generalizing s with
  | nil => exact ⟨h1, h2⟩
  | cons a rest ih =>
      have hb := applyAction_bounds s a h1 h2
      simpa using ih (applyAction s a) hb.1 hb.2

/-- C8: after any sequence of store actions starting from the initial store
state, `liveUpdates` has at most 100 entries and `logs` at most 500, and
`addLiveUpdate` (resp. `addLog`) places the new entry at the front of its
list. -/
theorem c8_bounded_lists {α β γ δ ε : Type} :
    (∀ acts : List (StoreAction α β γ δ ε),
        (acts.foldl applyAction initialStore).liveUpdates.length ≤ 100 ∧
        (acts.foldl applyAction initialStore).logs.length ≤ 500) ∧
    (∀ (s : StoreState α β γ δ ε) (u : α),
        (applyAction s (.addLiveUpdate u)).liveUpdates.head? = some u) ∧
    (∀ (s : StoreState α β γ δ ε) (l : β),
        (applyAction s (.addLog l)).logs.head? = some l) := by
  refine ⟨fun acts => ?_, fun s u => ?_, fun s l => ?_⟩
  · exact foldl_applyAction_bounds acts initialStore (by simp [initialStore])
      (by simp [initialStore])
  · simp [applyAction, List.take_succ_cons]
  · simp [applyAction, List.take_succ_cons]

/-! ### Claim C9 -/

/-- Helper: once the attempts counter has reached the maximum, further
failures leave it unchanged. -/
theorem failStep_iterate_fixed (k : Nat) :
    failStep^[k] maxReconnectAttempts = maxReconnectAttempts := by
  induction k with
  | zero => rfl
  | succ k ih =>
      rw [Function.iterate_succ_apply]
      have hstep : failStep maxReconnectAttempts = maxReconnectAttempts := by
        simp [failStep, handleReconnect]
      rw [hstep, ih]

/-- C9: the n-th consecutive disconnect or connection error, for
`1 ≤ n ≤ 5`, schedules a reconnection after exactly `1000 * 2 ^ (n - 1)`
milliseconds, and once five reconnection attempts have been made no further
reconnection is ever scheduled. -/
theorem c9_reconnect_backoff :
    (∀ n, 1 ≤ n → n ≤ 5 → nthReconnectDelay n = some (1000 * 2 ^ (n - 1))) ∧
    (∀ m, 5 ≤ m → handleReconnect (failStep^[m] 0) = none) := by
  constructor
  · intro n h1 h2
    interval_cases n <;> rfl
  · intro m hm
    obtain ⟨k, rfl⟩ := Nat.exists_eq_add_of_le hm
    have h5 : failStep^[5] 0 = maxReconnectAttempts := rfl
    rw [Nat.add_comm, Function.iterate_add_apply, h5, failStep_iterate_fixed]
    rfl

/-- C9 witness: the third consecutive failure schedules a 4000 ms delay. -/
theorem c9_reconnect_backoff_witness :
    nthReconnectDelay 3 = some (1000 * 2 ^ (3 - 1)) :=
  c9_reconnect_backoff.1 3 (by decide) (by decide)

/-! ### Claim C4 -/

/-- C4, counterexample: with an id present and status `starting`, the claim
says stopping is initiated, but `stopSimulation` sends no request and leaves
the status unchanged. -/
theorem c4_counterexample :
    ¬ ((stopSimulation (some "sim-1") UiStatus.starting true).requestSent = true ∨
        (stopSimulation (some "sim-1") UiStatus.starting true).status =
          UiStatus.stopping) := by
  decide

/-- C4 (amended): `stopSimulation` is a no-op showing an error — no state
change, no stop request — unless an id is present and the status is
`running` or `stopping`; in that case it sends the stop request and, on
backend success, the status becomes `stopping` (on failure it is
unchanged). -/
theorem c4_stop_guard (id : Option String) (st : UiStatus) (ok : Bool) :
    ((id = none ∨ (st ≠ UiStatus.running ∧ st ≠ UiStatus.stopping)) →
        stopSimulation id st ok =
          { requestSent := false, errorShown := true, status := st }) ∧
    ((id ≠ none ∧ (st = UiStatus.running ∨ st = UiStatus.stopping)) →
        (stopSimulation id st ok).requestSent = true ∧
        (ok = true → (stopSimulation id st ok).status = UiStatus.stopping) ∧
        (ok = false → (stopSimulation id st ok).status = st)) := by
  constructor
  · intro h
    simp [stopSimulation, h]
  · intro h
    have hcond : ¬ (id = none ∨ (st ≠ UiStatus.running ∧ st ≠ UiStatus.stopping)) := by
      rcases h with ⟨hid, hst⟩
      rcases hst with hst | hst <;> simp [hid, hst]
    cases ok <;> simp [stopSimulation, hcond]

/-- C4 witness: with an id present and status `running`, the stop request is
sent and the status becomes `stopping` on success. -/
theorem c4_stop_guard_witness :
    (stopSimulation (some "sim-1") UiStatus.running true).requestSent = true ∧
    (true = true →
      (stopSimulation (some "sim-1") UiStatus.running true).status = UiStatus.stopping) ∧
    (true = false →
      (stopSimulation (some "sim-1") UiStatus.running true).status = UiStatus.running) :=
  (c4_stop_guard (some "sim-1") UiStatus.running true).2 (by decide)

end TrafficPowerTool

namespace TrafficPowerTool

/-! ## Configuration validation

`frontend/src/components/SimulationForm.tsx` (`formSchema`) and
`frontend/src/app/configuration/page.tsx` (`configSchema`).  URL
well-formedness — zod's `.url()` and the `new URL` check of
`validateUrl` in `frontend/src/lib/utils.ts` — is modelled by an abstract
predicate `urlOk` passed as a parameter. -/

/-- A zod `z.number().min(lo).max(hi)` check. -/
def rangeOk (lo hi x : ℚ) : Bool :=
  decide (lo ≤ x) && decide (x ≤ hi)

/-- An optional zod number check: absent fields pass. -/
def optRangeOk (lo hi : ℚ) : Option ℚ → Bool
  | none => true
  | some x => rangeOk lo hi x

/-- The fields validated by `formSchema` in `SimulationForm.tsx`. -/
structure FormValues where
  target_url : String
  total_sessions : ℚ
  max_concurrent : ℚ
  headless : Option Bool := none
  returning_visitor_rate : Option ℚ := none
  navigation_timeout : Option ℚ := none
  max_retries_per_session : Option ℚ := none
  mode_type : Option String := none
  network_type : Option String := none
  personas : Option String := none
  device_distribution : Option String := none
  country_distribution : Option String := none
  age_distribution : Option String := none

/-- The `formSchema` validation of `SimulationForm.tsx`: URL format on
`target_url`, `1 ≤ total_sessions ≤ 10000`, `1 ≤ max_concurrent ≤ 100`,
and range checks on the optional numeric fields; the optional string
fields carry no constraint. -/
def formAccepts (urlOk : String → Bool) (c : FormValues) : Bool :=
  urlOk c.target_url &&
  rangeOk 1 10000 c.total_sessions &&
  rangeOk 1 100 c.max_concurrent &&
  optRangeOk 0 100 c.returning_visitor_rate &&
  optRangeOk 1000 300000 c.navigation_timeout &&
  optRangeOk 0 5 c.max_retries_per_session

/-- The fields validated by `configSchema` in `app/configuration/page.tsx`. -/
structure ConfigValues where
  target_url : String
  total_sessions : ℚ
  max_concurrent : ℚ
  returning_visitor_rate : ℚ
  navigation_timeout : ℚ
  mode_type : String
  network_type : String

/-- The `configSchema` validation of `app/configuration/page.tsx`. -/
def configAccepts (urlOk : String → Bool) (c : ConfigValues) : Bool :=
  urlOk c.target_url &&
  rangeOk 1 10000 c.total_sessions &&
  rangeOk 1 100 c.max_concurrent &&
  rangeOk 0 100 c.returning_visitor_rate &&
  rangeOk 5000 300000 c.navigation_timeout &&
  (c.mode_type == "Bot" || c.mode_type == "Human") &&
  (c.network_type == "Default" || c.network_type == "3G" ||
    c.network_type == "4G" || c.network_type == "WiFi" ||
    c.network_type == "Offline")

/-! ### Claim C3 -/

/-- C3: each of the two configuration validators accepts only configurations
whose `target_url` is a well-formed URL, whose `total_sessions` lies in
`[1, 10000]` and whose `max_concurrent` lies in `[1, 100]`; contrapositively,
every configuration violating any of these checks is rejected. -/
theorem c3_validation_ranges (urlOk : String → Bool)
    (c : FormValues) (d : ConfigValues)
    (h1 : formAccepts urlOk c = true) (h2 : configAccepts urlOk d = true) :
    urlOk c.target_url = true ∧
    1 ≤ c.total_sessions ∧ c.total_sessions ≤ 10000 ∧
    1 ≤ c.max_concurrent ∧ c.max_concurrent ≤ 100 ∧
    urlOk d.target_url = true ∧
    1 ≤ d.total_sessions ∧ d.total_sessions ≤ 10000 ∧
    1 ≤ d.max_concurrent ∧ d.max_concurrent ≤ 100 := by
  simp only [formAccepts, configAccepts, rangeOk, Bool.and_eq_true,
    decide_eq_true_eq] at h1 h2
  tauto

/-- C3 witness: the default form and wizard configurations pass both
validators. -/
theorem c3_validation_ranges_witness :
    (fun _ : String => true) "https://example.com" = true ∧
    1 ≤ (100 : ℚ) ∧ (100 : ℚ) ≤ 10000 ∧
    1 ≤ (10 : ℚ) ∧ (10 : ℚ) ≤ 100 ∧
    (fun _ : String => true) "https://example.com" = true ∧
    1 ≤ (100 : ℚ) ∧ (100 : ℚ) ≤ 10000 ∧
    1 ≤ (10 : ℚ) ∧ (10 : ℚ) ≤ 100 :=
  c3_validation_ranges (fun _ => true)
    { target_url := "https://example.com", total_sessions := 100, max_concurrent := 10 }
    { target_url := "https://example.com", total_sessions := 100, max_concurrent := 10
      returning_visitor_rate := 30, navigation_timeout := 60000
      mode_type := "Bot", network_type := "Default" }
    (by norm_num [formAccepts, rangeOk, optRangeOk])
    (by norm_num [configAccepts, rangeOk])

/-! ## frontend/src/lib/utils.ts : calculatePercentage -/

/-- The `calculatePercentage` function of `frontend/src/lib/utils.ts`:
guard `total === 0`, otherwise `Math.round((value / total) * 100)`.
Mathlib's `round` is `⌊x + 1/2⌋`, matching JavaScript `Math.round`
(ties toward positive infinity). -/
def calculatePercentage (value total : ℚ) : ℚ :=
  if total = 0 then 0 else ((round (value / total * 100) : ℤ) : ℚ)

/-! ### Claim C10 -/

/-- C10: `calculatePercentage` returns 0 when `total = 0` and otherwise
`round (value / total * 100)` — so the division only happens with a
non-zero divisor — and for `0 ≤ value ≤ total` with `total > 0` the result
is an integer in `[0, 100]`. -/
theorem c10_calculate_percentage (v t : ℚ) :
    (t = 0 → calculatePercentage v t = 0) ∧
    (t ≠ 0 → calculatePercentage v t = ((round (v / t * 100) : ℤ) : ℚ)) ∧
    (0 ≤ v → v ≤ t → 0 < t →
      0 ≤ calculatePercentage v t ∧ calculatePercentage v t ≤ 100 ∧
      ∃ z : ℤ, calculatePercentage v t = (z : ℚ)) := by
  refine ⟨fun h => by simp [calculatePercentage, h],
    fun h => by simp [calculatePercentage, h],
    fun hv hvt ht => ?_⟩
  have htne : t ≠ 0 := ne_of_gt ht
  have hq0 : 0 ≤ v / t * 100 := by positivity
  have hq100 : v / t * 100 ≤ 100 := by
    have h1 : v / t ≤ 1 := (div_le_one ht).mpr hvt
    nlinarith
  have hr0 : 0 ≤ round (v / t * 100) := by
    rw [round_eq]
    exact Int.floor_nonneg.mpr (by linarith)
  have hr100 : round (v / t * 100) ≤ 100 := by
    rw [round_eq]
    have hle : v / t * 100 + 1 / 2 ≤ (100 : ℚ) + 1 / 2 := by linarith
    have hfl : (⌊(100 : ℚ) + 1 / 2⌋ : ℤ) = 100 :=
      Int.floor_eq_iff.mpr ⟨by norm_num, by norm_num⟩
    calc ⌊v / t * 100 + 1 / 2⌋ ≤ ⌊(100 : ℚ) + 1 / 2⌋ := Int.floor_le_floor hle
      _ = 100 := hfl
  refine ⟨?_, ?_, ⟨round (v / t * 100), by simp [calculatePercentage, htne]⟩⟩
  · simp only [calculatePercentage, htne, if_false]
    exact_mod_cast hr0
  · simp only [calculatePercentage, htne, if_false]
    exact_mod_cast hr100

/-- C10 witness: a quarter rounds to 25 percent. -/
theorem c10_calculate_percentage_witness :
    0 ≤ calculatePercentage 1 4 ∧ calculatePercentage 1 4 ≤ 100 ∧
    ∃ z : ℤ, calculatePercentage 1 4 = (z : ℚ) :=
  (c10_calculate_percentage 1 4).2.2 (by norm_num) (by norm_num) (by norm_num)

end TrafficPowerTool

namespace TrafficPowerTool

/-! ## The run orchestrator

The orchestrator (backend `SessionScheduler` / `SimulationController`) is
referenced by the repository's Docker build but its source is not present;
the definitions below are modelled from the specification. -/

/-- Modelled from the spec: the normalized `ExecutionPlan` fields the
scheduler claims depend on — `total_sessions` (≥ 1), `max_concurrent`
(≥ 1) and `max_retries_per_session` (≥ 0). -/
structure ExecutionPlan where
  total_sessions : Nat
  max_concurrent : Nat
  max_retries_per_session : Nat
deriving DecidableEq

/-- Terminal outcome of one session in the per-session state machine. -/
inductive SessionOutcome
  | succeeded
  | failedTerminal
deriving DecidableEq

/-- Modelled from the spec: the per-session retry loop of the missing
SessionScheduler.  `retriesLeft` is the remaining retry budget, `k` the
1-based attempt number and `exec k` whether the Session Executor call of
attempt `k` succeeds.  On failure the session re-enters `RetryPending` and
is redispatched while retries remain; afterwards it is `FailedTerminal`.
Returns the number of attempts made and the terminal outcome. -/
def runSessionAux (exec : Nat → Bool) : Nat → Nat → Nat × SessionOutcome
  | retriesLeft, k =>
    if exec k then (1, SessionOutcome.succeeded)
    else
      match retriesLeft with
      | 0 => (1, SessionOutcome.failedTerminal)
      | r + 1 =>
        let rest := runSessionAux exec r (k + 1)
        (rest.1 + 1, rest.2)

/-- Modelled from the spec: a full session run with retry budget
`max_retries_per_session`, starting at attempt 1. -/
def runSession (maxRetries : Nat) (exec : Nat → Bool) : Nat × SessionOutcome :=
  runSessionAux exec maxRetries 1

/-- Helper: a session whose executor fails on every attempt uses its whole
budget and ends `failedTerminal`. -/
theorem runSessionAux_allFail (exec : Nat → Bool) (hfail : ∀ k, exec k = false)
    (r k : Nat) :
    runSessionAux exec r k = (r + 1, SessionOutcome.failedTerminal) := by
  induction r generalizing k with
  | zero => simp [runSessionAux, hfail]
  | succ r ih => simp [runSessionAux, hfail, ih]

/-- Helper: no session run makes more than `retriesLeft + 1` attempts. -/
theorem runSessionAux_le (exec : Nat → Bool) (r k : Nat) :
    (runSessionAux exec r k).1 ≤ r + 1 := by
  induction r generalizing k with
  | zero =>
      unfold runSessionAux
      split <;> simp
  | succ r ih =>
      unfold runSessionAux
      split
      · simp
      · simpa using Nat.succ_le_succ (ih (k + 1))

/-! ### Claim C6 -/

/-- C6: a session whose Session Executor call fails on every attempt reaches
`FailedTerminal` after exactly `1 + max_retries_per_session` attempts, and no
session is ever attempted more than `1 + max_retries_per_session` times. -/
theorem c6_retry_budget (maxRetries : Nat) (exec : Nat → Bool)
    (hfail : ∀ k, exec k = false) :
    runSession maxRetries exec = (1 + maxRetries, SessionOutcome.failedTerminal) ∧
    ∀ e : Nat → Bool, (runSession maxRetries e).1 ≤ 1 + maxRetries := by
  constructor
  · rw [runSession, runSessionAux_allFail exec hfail, Nat.add_comm]
  · intro e
    rw [runSession, Nat.add_comm]
    exact runSessionAux_le e maxRetries 1

/-- C6 witness: with a retry budget of 2, an always-failing session makes
exactly 3 attempts. -/
theorem c6_retry_budget_witness :
    runSession 2 (fun _ => false) = (1 + 2, SessionOutcome.failedTerminal) :=
  (c6_retry_budget 2 (fun _ => false) (fun _ => rfl)).1

/-! ### The scheduler / controller transition system (claims C5 and C7) -/

/-- Run lifecycle statuses relevant to the scheduler model. -/
inductive RunStatus
  | running
  | stopping
  | stopped
  | completed
deriving DecidableEq

/-- Modelled from the spec: the observable scheduler state — session specs
not yet dispatched (generated lazily), sessions currently dispatched to the
worker pool, and the terminal outcome counters reported exactly once per
session. -/
structure SchedulerState where
  pending : Nat
  dispatched : Nat
  successful : Nat
  failed : Nat
  status : RunStatus
deriving DecidableEq

/-- Modelled from the spec: the scheduler starts a run with every session
pending and nothing dispatched. -/
def initScheduler (plan : ExecutionPlan) : SchedulerState :=
  { pending := plan.total_sessions, dispatched := 0, successful := 0
    failed := 0, status := RunStatus.running }

/-- Modelled from the spec: one scheduler transition.  Admission control
guards `dispatch` by a free pool slot (`dispatched < max_concurrent`);
terminal outcomes decrement the pool and bump exactly one counter; the run
completes when nothing is pending or in flight; a stop request halts new
dispatch and the run drains to `stopped`. -/
inductive SchedStep (plan : ExecutionPlan) : SchedulerState → SchedulerState → Prop
  | dispatch (s : SchedulerState) (hst : s.status = RunStatus.running)
      (hp : 0 < s.pending) (hc : s.dispatched < plan.max_concurrent) :
      SchedStep plan s
        { s with pending := s.pending - 1, dispatched := s.dispatched + 1 }
  | succeed (s : SchedulerState) (hd : 0 < s.dispatched) :
      SchedStep plan s
        { s with dispatched := s.dispatched - 1, successful := s.successful + 1 }
  | fail (s : SchedulerState) (hd : 0 < s.dispatched) :
      SchedStep plan s
        { s with dispatched := s.dispatched - 1, failed := s.failed + 1 }
  | complete (s : SchedulerState) (hst : s.status = RunStatus.running)
      (hp : s.pending = 0) (hd : s.dispatched = 0) :
      SchedStep plan s { s with status := RunStatus.completed }
  | stopRequest (s : SchedulerState) (hst : s.status = RunStatus.running) :
      SchedStep plan s { s with status := RunStatus.stopping }
  | drained (s : SchedulerState) (hst : s.status = RunStatus.stopping)
      (hd : s.dispatched = 0) :
      SchedStep plan s { s with status := RunStatus.stopped }

/-- States the scheduler can reach from the start of a run. -/
def SchedReachable (plan : ExecutionPlan) (s : SchedulerState) : Prop :=
  Relation.ReflTransGen (SchedStep plan) (initScheduler plan) s

/-- The inductive invariant of the scheduler: session conservation, the
admission bound, and emptiness of the pipeline once completed. -/
def SchedInv (plan : ExecutionPlan) (s : SchedulerState) : Prop :=
  s.pending + s.dispatched + s.successful + s.failed = plan.total_sessions ∧
  s.dispatched ≤ plan.max_concurrent ∧
  (s.status = RunStatus.completed → s.pending = 0 ∧ s.dispatched = 0)

/-- Helper: the invariant holds initially. -/
theorem schedInv_init (plan : ExecutionPlan) : SchedInv plan (initScheduler plan) := by
  refine ⟨by simp [initScheduler], by simp [initScheduler], ?_⟩
  intro h
  simp [initScheduler] at h

/-- Helper: every scheduler step preserves the invariant. -/
theorem schedInv_step (plan : ExecutionPlan) (s t : SchedulerState)
    (hinv : SchedInv plan s) (hstep : SchedStep plan s t) : SchedInv plan t := by
  obtain ⟨hsum, hcap, hcomp⟩ := hinv
  cases hstep with
  | dispatch hst hp hc =>
      refine ⟨by simp; omega, by simp; omega, ?_⟩
      intro h
      simp only [hst] at h
      simp at h
  | succeed hd =>
      refine ⟨by simp; omega, by simp; omega, ?_⟩
      intro h
      simp at h
      have := (hcomp h).2
      omega
  | fail hd =>
      refine ⟨by simp; omega, by simp; omega, ?_⟩
      intro h
      simp at h
      have := (hcomp h).2
      omega
  | complete hst hp hd =>
      exact ⟨by simp; omega, by simp; omega, fun _ => by simp [hp, hd]⟩
  | stopRequest hst =>
      refine ⟨by simp; omega, by simp; omega, ?_⟩
      intro h
      simp at h
  | drained hst hd =>
      refine ⟨by simp; omega, by simp; omega, ?_⟩
      intro h
      simp at h

/-- Helper: the invariant holds in every reachable state. -/
theorem schedInv_reachable (plan : ExecutionPlan) (s : SchedulerState)
    (h : SchedReachable plan s) : SchedInv plan s := by
  induction h with
  | refl => exact schedInv_init plan
  | tail _ hstep ih => exact schedInv_step plan _ _ ih hstep

/-! ### Claim C5 -/

/-- C5: for a valid plan, in every reachable state whose status is
`Completed` the stats satisfy `successful + failed = total_sessions`. -/
theorem c5_completed_accounting (plan : ExecutionPlan) (s : SchedulerState)
    (_hvalid : 1 ≤ plan.total_sessions ∧ 1 ≤ plan.max_concurrent)
    (hr : SchedReachable plan s) (hc : s.status = RunStatus.completed) :
    s.successful + s.failed = plan.total_sessions := by
  obtain ⟨hsum, _, hcomp⟩ := schedInv_reachable plan s hr
  obtain ⟨hp, hd⟩ := hcomp hc
  omega

/-- C5 witness: a one-session run that dispatches, succeeds and completes. -/
theorem c5_completed_accounting_witness :
    ({ pending := 0, dispatched := 0, successful := 1, failed := 0
       status := RunStatus.completed } : SchedulerState).successful +
      ({ pending := 0, dispatched := 0, successful := 1, failed := 0
         status := RunStatus.completed } : SchedulerState).failed =
      ({ total_sessions := 1, max_concurrent := 1, max_retries_per_session := 0 } :
        ExecutionPlan).total_sessions :=
  c5_completed_accounting
    { total_sessions := 1, max_concurrent := 1, max_retries_per_session := 0 }
    { pending := 0, dispatched := 0, successful := 1, failed := 0
      status := RunStatus.completed }
    ⟨Nat.le_refl 1, Nat.le_refl 1⟩
    (Relation.ReflTransGen.head
      (SchedStep.dispatch _ rfl (by decide) (by decide))
      (Relation.ReflTransGen.head
        (SchedStep.succeed _ (by decide))
        (Relation.ReflTransGen.head
          (SchedStep.complete _ rfl rfl rfl)
          Relation.ReflTransGen.refl)))
    rfl

/-! ### Claim C7 -/

/-- C7: in every reachable scheduler state the number of concurrently
dispatched sessions is at most `max_concurrent`, and any step that increases
the dispatched count starts from a state with a free pool slot. -/
theorem c7_admission_control (plan : ExecutionPlan) :
    (∀ s : SchedulerState, SchedReachable plan s →
        s.dispatched ≤ plan.max_concurrent) ∧
    (∀ s t : SchedulerState, SchedStep plan s t →
        s.dispatched < t.dispatched → s.dispatched < plan.max_concurrent) := by
  constructor
  · intro s hr
    exact (schedInv_reachable plan s hr).2.1
  · intro s t hstep hlt
    cases hstep <;> simp_all <;> omega

/-- C7 witness: at the start of a five-session run with pool width two, the
dispatched count is within the bound. -/
theorem c7_admission_control_witness :
    (initScheduler
        { total_sessions := 5, max_concurrent := 2, max_retries_per_session := 0 }).dispatched ≤
      ({ total_sessions := 5, max_concurrent := 2, max_retries_per_session := 0 } :
        ExecutionPlan).max_concurrent :=
  (c7_admission_control
      { total_sessions := 5, max_concurrent := 2, max_retries_per_session := 0 }).1
    (initScheduler
      { total_sessions := 5, max_concurrent := 2, max_retries_per_session := 0 })
    Relation.ReflTransGen.refl

end TrafficPowerTool
